import Mathlib

/-!
# Verification of the Processrunner test-fixture scripts

Shallow embedding of the two scripts in `src/processutils.tests`:

* `encode_base64.py` — reads the file named by its first argument and prints
  the Base64 encoding of its bytes (via Python `print`, which appends a
  newline); with no argument it prints nothing and exits 0.
* `test_sleep.py` — parses an optional integer duration (default 5),
  sleeps for that many seconds (Python `time.sleep`, which raises on a
  negative duration), then prints `done` followed by a newline.

Bytes are modelled as `Nat` with explicit `< 256` bounds where they matter.
The filesystem is modelled as a function from paths to `Option` byte lists
(`none` = the file does not exist or is unreadable).  An uncaught Python
exception terminates the interpreter with exit code 1 and nothing written
to standard output.
-/

/-- The 64-character Base64 alphabet of RFC 4648, in index order,
as used by Python's `base64.b64encode`. -/
def b64table : List Char :=
  ['A', 'B', 'C', 'D', 'E', 'F', 'G', 'H', 'I', 'J', 'K', 'L', 'M',
   'N', 'O', 'P', 'Q', 'R', 'S', 'T', 'U', 'V', 'W', 'X', 'Y', 'Z',
   'a', 'b', 'c', 'd', 'e', 'f', 'g', 'h', 'i', 'j', 'k', 'l', 'm',
   'n', 'o', 'p', 'q', 'r', 's', 't', 'u', 'v', 'w', 'x', 'y', 'z',
   '0', '1', '2', '3', '4', '5', '6', '7', '8', '9', '+', '/']

/-- The alphabet character at index `n` (only used with `n < 64`). -/
def b64char (n : Nat) : Char := b64table.getD n 'A'

/-- Index of a character in the Base64 alphabet, `none` if absent. -/
def b64index (c : Char) : Option Nat :=
  if b64table.contains c then some (b64table.indexOf c) else none

/-- Base64 encoding of a byte sequence, exactly as `base64.b64encode`:
each 3-byte group becomes 4 alphabet characters; a trailing group of 1 or
2 bytes is padded with `=`.  The shift/mask arithmetic of the C encoder
(`b >>> 2`, `(b &&& 3) <<< 4`, ...) is written with `/` and `%`. -/
def b64encode : List Nat → List Char
  | [] => []
  | [a] =>
      [b64char (a / 4), b64char (a % 4 * 16), '=', '=']
  | [a, b] =>
      [b64char (a / 4), b64char (a % 4 * 16 + b / 16), b64char (b % 16 * 4), '=']
  | a :: b :: c :: rest =>
      b64char (a / 4) :: b64char (a % 4 * 16 + b / 16) ::
      b64char (b % 16 * 4 + c / 64) :: b64char (c % 64) :: b64encode rest

/-- Characters that a (lenient, Python-style) Base64 decoder looks at:
alphabet characters and the padding sign.  Everything else — in particular
the newline appended by `print` — is discarded before decoding. -/
def b64keep (c : Char) : Bool := b64table.contains c || c == '='

/-- Decode a cleaned-up Base64 character stream (groups of four, padding
only at the very end), returning the byte sequence or `none` on malformed
input. -/
def b64decodeCore : List Char → Option (List Nat)
  | [] => some []
  | c1 :: c2 :: c3 :: c4 :: rest =>
      match b64index c1, b64index c2 with
      | some n1, some n2 =>
        if c3 = '=' then
          if c4 = '=' ∧ rest = [] then
            some [n1 * 4 + n2 / 16]
          else none
        else
          match b64index c3 with
          | some n3 =>
            if c4 = '=' then
              if rest = [] then
                some [n1 * 4 + n2 / 16, n2 % 16 * 16 + n3 / 4]
              else none
            else
              match b64index c4 with
              | some n4 =>
                (b64decodeCore rest).map
                  (fun t => (n1 * 4 + n2 / 16) :: (n2 % 16 * 16 + n3 / 4) ::
                            (n3 % 4 * 64 + n4) :: t)
              | none => none
          | none => none
      | _, _ => none
  | _ => none

/-- Base64 decoding of a string, Python-style: characters outside the
alphabet (other than `=`) are discarded first, as `base64.b64decode` does
by default. -/
def b64decode (s : String) : Option (List Nat) :=
  b64decodeCore (s.toList.filter b64keep)

/-- Observable outcome of one run of `encode_base64.py`: what was written
to standard output, the process exit code, and which paths it opened. -/
structure RunResult where
  stdout : String
  exitCode : Nat
  readPaths : List String
  deriving DecidableEq

/-- One run of `encode_base64.py`.  `args` is `sys.argv[1:]` and `fs`
maps a path to the bytes of the file it names (`none` if opening fails).
With no argument the script prints `""` (no newline) and exits 0; with an
argument it opens the file — an open/read failure is an uncaught exception
(exit 1, empty stdout) — and `print`s the Base64 encoding, so a newline
follows it on standard output. -/
def encoderRun (args : List String) (fs : String → Option (List Nat)) : RunResult :=
  match args with
  | [] => ⟨"", 0, []⟩
  | path :: _ =>
      match fs path with
      | none => ⟨"", 1, [path]⟩
      | some data => ⟨String.mk (b64encode data) ++ "\n", 0, [path]⟩

/-- The whitespace characters stripped by Python's `int(str)` conversion. -/
def isPySpace (c : Char) : Bool :=
  c = ' ' || c = '\t' || c = '\n' || c = '\r' || c = '\x0b' || c = '\x0c'

/-- Strip leading and trailing whitespace, as `int(str)` does. -/
def stripPy (l : List Char) : List Char :=
  ((l.dropWhile isPySpace).reverse.dropWhile isPySpace).reverse

/-- Valid continuation of a digit string after a digit: further digits,
with single underscores allowed only between digits (Python's integer
literal grouping rule). -/
def digitsAfter : List Char → Bool
  | [] => true
  | '_' :: d :: rest => d.isDigit && digitsAfter rest
  | '_' :: [] => false
  | c :: rest => c.isDigit && digitsAfter rest

/-- A valid unsigned digit body for `int(str)`: at least one digit,
underscores only between digits. -/
def digitBodyOk : List Char → Bool
  | [] => false
  | c :: rest => c.isDigit && digitsAfter rest

/-- Numeric value of a digit string (underscores ignored). -/
def digitsVal (l : List Char) : Nat :=
  (l.filter Char.isDigit).foldl (fun acc c => acc * 10 + (c.toNat - 48)) 0

/-- Parse an unsigned digit body, `none` if malformed. -/
def digitBody (l : List Char) : Option Nat :=
  if digitBodyOk l then some (digitsVal l) else none

/-- Python's `int(str)` conversion: strip whitespace, optional single
sign, then a digit body.  `none` models the `ValueError` raised on any
other input. -/
def pythonInt (s : String) : Option Int :=
  match stripPy s.toList with
  | '+' :: rest => (digitBody rest).map (fun n => (n : Int))
  | '-' :: rest => (digitBody rest).map (fun n => -(n : Int))
  | l => (digitBody l).map (fun n => (n : Int))

/-- Observable outcome of one run of `test_sleep.py`: standard output,
exit code, and the duration actually passed to a successful `time.sleep`
(`none` when the run failed before or inside the sleep). -/
structure SleepResult where
  stdout : String
  exitCode : Nat
  slept : Option Int
  deriving DecidableEq

/-- One run of `test_sleep.py`.  `args` is `sys.argv[1:]`.  The duration
is `int(sys.argv[1])` when an argument is present (an unparseable argument
is an uncaught `ValueError`: exit 1, nothing printed), else 5.
`time.sleep` raises `ValueError` on a negative duration, which is likewise
uncaught; otherwise the script sleeps and then `print`s `done`. -/
def sleeperRun (args : List String) : SleepResult :=
  match args with
  | [] => ⟨"done\n", 0, some 5⟩
  | a :: _ =>
      match pythonInt a with
      | none => ⟨"", 1, none⟩
      | some n =>
          if n < 0 then ⟨"", 1, none⟩
          else ⟨"done\n", 0, some n⟩

lemma b64keep_char_fin : ∀ n : Fin 64, b64keep (b64char n.val) = true := by decide

lemma b64index_char_fin : ∀ n : Fin 64, b64index (b64char n.val) = some n.val := by decide

lemma b64char_ne_pad_fin : ∀ n : Fin 64, b64char n.val ≠ '=' := by decide

lemma b64keep_char {n : Nat} (h : n < 64) : b64keep (b64char n) = true :=
  b64keep_char_fin ⟨n, h⟩

lemma b64index_char {n : Nat} (h : n < 64) : b64index (b64char n) = some n :=
  b64index_char_fin ⟨n, h⟩

lemma b64char_ne_pad {n : Nat} (h : n < 64) : b64char n ≠ '=' :=
  b64char_ne_pad_fin ⟨n, h⟩

lemma b64keep_pad : b64keep '=' = true := by decide

/-- Core round trip: decoding the (cleaned) output of the encoder gives the
original bytes back, for any byte sequence. -/
theorem b64decodeCore_filter_encode :
    ∀ (B : List Nat), (∀ b ∈ B, b < 256) →
      b64decodeCore ((b64encode B).filter b64keep) = some B
  | [], _ => rfl
  | [a], h => by
      have ha : a < 256 := h a (by simp)
      have h1 : a / 4 < 64 := by omega
      have h2 : a % 4 * 16 < 64 := by omega
      simp [b64encode, b64keep_char h1, b64keep_char h2, b64keep_pad,
        b64decodeCore, b64index_char h1, b64index_char h2]
      omega
  | [a, b], h => by
      have ha : a < 256 := h a (by simp)
      have hb : b < 256 := h b (by simp)
      have h1 : a / 4 < 64 := by omega
      have h2 : a % 4 * 16 + b / 16 < 64 := by omega
      have h3 : b % 16 * 4 < 64 := by omega
      simp [b64encode, b64keep_char h1, b64keep_char h2, b64keep_char h3,
        b64keep_pad, b64decodeCore, b64index_char h1, b64index_char h2,
        b64index_char h3, b64char_ne_pad h3]
      omega
  | a :: b :: c :: rest, h => by
      have ha : a < 256 := h a (by simp)
      have hb : b < 256 := h b (by simp)
      have hc : c < 256 := h c (by simp)
      have h1 : a / 4 < 64 := by omega
      have h2 : a % 4 * 16 + b / 16 < 64 := by omega
      have h3 : b % 16 * 4 + c / 64 < 64 := by omega
      have h4 : c % 64 < 64 := by omega
      have ih := b64decodeCore_filter_encode rest
        (fun x hx => h x (by simp at hx ⊢; tauto))
      simp [b64encode, b64keep_char h1, b64keep_char h2, b64keep_char h3,
        b64keep_char h4, b64decodeCore, b64index_char h1, b64index_char h2,
        b64index_char h3, b64index_char h4, b64char_ne_pad h3,
        b64char_ne_pad h4, ih]
      omega

example : b64encode [0, 1, 2] = ['A', 'A', 'E', 'C'] := by decide
example : b64decode "AAEC\n" = some [0, 1, 2] := by decide
example : b64decode "TWFu" = some [77, 97, 110] := by decide
example : b64encode [77, 97] = ['T', 'W', 'E', '='] := by decide
example : b64decode "TWE=" = some [77, 97] := by decide
example : b64encode [77] = ['T', 'Q', '=', '='] := by decide
example : b64decode "TQ==" = some [77] := by decide
example : pythonInt "abc" = none := by decide
example : pythonInt " -3_0 " = some (-30) := by decide
example : pythonInt "+" = none := by decide
example : pythonInt "12" = some 12 := by decide
example : sleeperRun [] = ⟨"done\n", 0, some 5⟩ := by decide

/-- C1: for every byte sequence `B`, Base64-decoding the encoder's standard
output for a file containing `B` yields exactly `B` (round trip), the
newline appended by `print` being discarded by the decoder as Python's
`base64.b64decode` does. -/
theorem encoder_decode_roundtrip (path : String) (fs : String → Option (List Nat))
    (B : List Nat) (hfs : fs path = some B) (hB : ∀ b ∈ B, b < 256) :
    b64decode (encoderRun [path] fs).stdout = some B := by
  simp only [encoderRun, hfs, b64decode]
  have hl : (String.mk (b64encode B) ++ "\n").toList = b64encode B ++ ['\n'] := rfl
  rw [hl, List.filter_append]
  have hnl : List.filter b64keep ['\n'] = [] := rfl
  rw [hnl, List.append_nil]
  exact b64decodeCore_filter_encode B hB

/-- Witness for C1 at the file `[0x00, 0x01, 0x02]`. -/
theorem encoder_decode_roundtrip_witness :
    b64decode (encoderRun ["f"] (fun _ => some [0, 1, 2])).stdout = some [0, 1, 2] :=
  encoder_decode_roundtrip "f" (fun _ => some [0, 1, 2]) [0, 1, 2] rfl (by decide)

/-- C2 counterexample: on an empty file the encoder's output is not the
empty string — `print` appends a newline, so the output is `"\n"`. -/
theorem encoder_empty_output_not_empty :
    (encoderRun ["f"] (fun _ => some [])).stdout ≠ "" := by decide

/-- C2 (amended): for every readable file, the encoder writes the RFC 4648
Base64 encoding of the file's bytes followed by a single trailing newline
and exits 0; in particular, for an empty file the output is exactly one
newline. -/
theorem encoder_success_output (path : String) (fs : String → Option (List Nat))
    (data : List Nat) (hfs : fs path = some data) :
    encoderRun [path] fs = ⟨String.mk (b64encode data) ++ "\n", 0, [path]⟩ := by
  simp [encoderRun, hfs]

/-- Witness for C2 (amended) at an empty file: output is one newline. -/
theorem encoder_success_output_witness :
    encoderRun ["f"] (fun _ => some []) = ⟨"\n", 0, ["f"]⟩ :=
  encoder_success_output "f" (fun _ => some []) [] rfl

/-- C3 counterexample: for the file `[0x00, 0x01, 0x02]` the output is not
the literal string `AAEC` (a newline follows it). -/
theorem encoder_AAEC_not_literal :
    (encoderRun ["f"] (fun _ => some [0, 1, 2])).stdout ≠ "AAEC" := by decide

/-- C3 (amended): for the file `[0x00, 0x01, 0x02]` the encoder's output is
`AAEC` followed by a newline. -/
theorem encoder_AAEC_newline :
    (encoderRun ["f"] (fun _ => some [0, 1, 2])).stdout = "AAEC\n" := by decide

/-- C4: with zero arguments the encoder prints nothing, exits 0, and reads
no file, whatever the filesystem contains. -/
theorem encoder_no_args (fs : String → Option (List Nat)) :
    encoderRun [] fs = ⟨"", 0, []⟩ := rfl

/-- C5: when the single argument names a nonexistent or unreadable path,
the encoder exits non-zero and writes nothing to standard output. -/
theorem encoder_missing_file (path : String) (fs : String → Option (List Nat))
    (hfs : fs path = none) :
    (encoderRun [path] fs).exitCode ≠ 0 ∧ (encoderRun [path] fs).stdout = "" := by
  simp [encoderRun, hfs]

/-- Witness for C5 on an empty filesystem. -/
theorem encoder_missing_file_witness :
    (encoderRun ["g"] (fun _ => none)).exitCode ≠ 0 ∧
      (encoderRun ["g"] (fun _ => none)).stdout = "" :=
  encoder_missing_file "g" (fun _ => none) rfl

/-- C6: the encoder is deterministic — two runs with the same argument on a
file with the same contents produce identical standard output and exit
codes (the whole observable result agrees). -/
theorem encoder_deterministic (path : String)
    (fs1 fs2 : String → Option (List Nat)) (hsame : fs1 path = fs2 path) :
    encoderRun [path] fs1 = encoderRun [path] fs2 := by
  simp only [encoderRun, hsame]

/-- Witness for C6 with two filesystems that agree at the path. -/
theorem encoder_deterministic_witness :
    encoderRun ["f"] (fun _ => some [7, 8]) =
      encoderRun ["f"] (fun _ => some ([7] ++ [8])) :=
  encoder_deterministic "f" (fun _ => some [7, 8]) (fun _ => some ([7] ++ [8])) rfl

/-- C7: with zero arguments the sleeper sleeps exactly 5 seconds, prints
exactly the line `done` with a newline, and exits 0. -/
theorem sleeper_default_five : sleeperRun [] = ⟨"done\n", 0, some 5⟩ := rfl

/-- C8: an argument that does not parse as a Python integer makes the
sleeper exit non-zero with nothing printed. -/
theorem sleeper_bad_arg (s : String) (hs : pythonInt s = none) :
    (sleeperRun [s]).exitCode ≠ 0 ∧ (sleeperRun [s]).stdout = "" := by
  simp [sleeperRun, hs]

/-- Witness for C8 at the argument `abc`. -/
theorem sleeper_bad_arg_witness :
    (sleeperRun ["abc"]).exitCode ≠ 0 ∧ (sleeperRun ["abc"]).stdout = "" :=
  sleeper_bad_arg "abc" (by decide)

/-- C9: an argument that parses as a negative integer makes the sleeper
exit non-zero without printing `done`, because `time.sleep` rejects
negative durations. -/
theorem sleeper_negative_arg (s : String) (n : Int)
    (hs : pythonInt s = some n) (hn : n < 0) :
    (sleeperRun [s]).exitCode ≠ 0 ∧ (sleeperRun [s]).stdout = "" := by
  simp [sleeperRun, hs, if_pos hn]

/-- Witness for C9 at the argument `-3`. -/
theorem sleeper_negative_arg_witness :
    (sleeperRun ["-3"]).exitCode ≠ 0 ∧ (sleeperRun ["-3"]).stdout = "" :=
  sleeper_negative_arg "-3" (-3) (by decide) (by decide)

/-- C10: both scripts ignore every argument after the first — a run with
extra arguments is observably identical to the one-argument run. -/
theorem extra_args_ignored (a : String) (rest : List String)
    (fs : String → Option (List Nat)) :
    encoderRun (a :: rest) fs = encoderRun [a] fs ∧
      sleeperRun (a :: rest) = sleeperRun [a] :=
  ⟨rfl, rfl⟩
